/-
Verification of the ARIA Radiology Workbench backend (src/backend/main.py).

The backend is a FastAPI + SQLite service.  We give a shallow embedding:

* the SQLite database is a record of five lists (one per table);
* the in-memory session store `SESSIONS` (a Python dict token -> username)
  is an association list, passed to every endpoint; `/api/*` handlers never
  write to it (the source only reads `SESSIONS[token]`), so endpoints take
  it as a read-only argument and return the (possibly updated) database
  together with an `Except Err` outcome; an `.error` outcome returns the
  database unchanged, modelling the fact that the Python handler raises
  `HTTPException` before touching the database;
* SQLite TEXT comparison (BINARY collation) is lexicographic comparison of
  the character lists (`strLe`); `LIKE '%x%'` is an ASCII-case-insensitive
  substring test (`likeContains`);
* `ORDER BY` is modelled by an insertion sort `sortByLe` with the comparator
  taken from the SQL `ORDER BY` clause (SQL does not promise a stable sort,
  so any sorted permutation is a faithful model);
* Python's `random` module is modelled by an explicit stream of naturals
  (`Rng`); `random.randint(a,b)` maps a drawn `x` into `[a,b]` as
  `a + x % (b-a+1)`, `random.choice` indexes the pool by a draw,
  `uuid.uuid4()` produces `"u" ++ toString draw`; `random.sample` plus
  `json.dumps` of the allergy/alert pools and calendar timestamp formatting
  are abstracted to injective encodings of the draws (their content is
  never load-bearing);
* primary keys of freshly drawn UUIDs are assumed collision-free, so the
  modelled uniqueness constraint is the one the code actually relies on:
  `patients.mrn UNIQUE` (an insert of a duplicate MRN raises and is caught
  by the surrounding `try/except`; other inserts are plain appends).
-/
import Mathlib

set_option linter.unusedVariables false

namespace Aria

/-! ## String utilities: SQLite BINARY collation and LIKE -/

/-- Lexicographic order on character lists; models SQLite's BINARY
collation used by `ORDER BY` on TEXT columns. -/
def lexLe : List Char → List Char → Bool
  | [], _ => true
  | _ :: _, [] => false
  | a :: as, b :: bs => if a = b then lexLe as bs else decide (a < b)

/-- TEXT comparison of two strings. -/
def strLe (a b : String) : Bool :=
  lexLe a.toList b.toList

/-- Does `hay` start with `needle`? -/
def startsWithL : List Char → List Char → Bool
  | [], _ => true
  | _ :: _, [] => false
  | a :: as, b :: bs => a = b && startsWithL as bs

/-- Does `needle` occur as a contiguous run inside `hay`? -/
def containsSub (needle hay : List Char) : Bool :=
  match hay with
  | [] => needle.isEmpty
  | _ :: t => startsWithL needle hay || containsSub needle t

/-- ASCII lower-casing, as used by SQLite's `LIKE`. -/
def lowerChar (c : Char) : Char :=
  if 'A' ≤ c ∧ c ≤ 'Z' then Char.ofNat (c.toNat + 32) else c

/-- Models `hay LIKE '%pat%'` in SQLite: ASCII-case-insensitive substring test. -/
def likeContains (hay pat : String) : Bool :=
  containsSub (pat.toList.map lowerChar) (hay.toList.map lowerChar)

/-! ## Sorting (model of SQL ORDER BY) -/

/-- Insert `x` into `l` in front of the first element `y` with `le x y`. -/
def insertSorted (le : α → α → Bool) (x : α) : List α → List α
  | [] => [x]
  | y :: ys => if le x y then x :: y :: ys else y :: insertSorted le x ys

/-- Insertion sort by the boolean comparator `le`. -/
def sortByLe (le : α → α → Bool) : List α → List α
  | [] => []
  | x :: xs => insertSorted le x (sortByLe le xs)

/-! ## Data model: the five SQLite tables -/

structure Patient where
  patient_id : String
  mrn : String
  first_name : String
  last_name : String
  dob : String
  sex : String
  phone : String
  allergies : String
  alerts : String
  infection_flags : String
  deriving DecidableEq, Repr

structure Order where
  order_id : String
  patient_id : String
  ordering_clinician : String
  ordering_location : String
  indication : String
  priority : String
  status : String
  created_at : String
  deriving DecidableEq, Repr

structure Study where
  study_id : String
  patient_id : String
  order_id : String
  modality : String
  description : String
  body_part : String
  scheduled_time : String
  acquisition_time : String
  accession : String
  report_status : String
  critical_flag : Nat
  pacs_status : String
  deriving DecidableEq, Repr

structure Series where
  series_id : String
  study_id : String
  series_number : Nat
  series_description : String
  deriving DecidableEq, Repr

structure Report where
  report_id : String
  study_id : String
  author : String
  created_at : String
  updated_at : String
  indication : String
  technique : String
  findings : String
  impression : String
  sign_status : String
  addenda : String
  deriving DecidableEq, Repr

/-- The SQLite database `aria.db`. -/
structure DB where
  patients : List Patient
  orders : List Order
  studies : List Study
  series : List Series
  reports : List Report
  deriving DecidableEq, Repr

def DB.empty : DB := ⟨[], [], [], [], []⟩

/-! ## Sessions and errors -/

/-- The in-memory `SESSIONS` dict: token -> username. -/
abbrev Sessions := List (String × String)

/-- Models `token in SESSIONS` / `SESSIONS[token]`. -/
def lookupToken (sessions : Sessions) (token : String) : Option String :=
  (sessions.find? fun kv => kv.1 = token).map fun kv => kv.2

/-- The `HTTPException` conditions raised by the handlers. -/
inductive Err where
  | unauthorized
  | notFound
  | badRequest
  | serverError
  deriving DecidableEq, Repr

/-- Model of `verify_token` (main.py:93): 401 when the token is not in `SESSIONS`,
otherwise the mapped username. -/
def verify_token (sessions : Sessions) (token : String) : Except Err String :=
  match sessions.find? fun kv => kv.1 = token with
  | none => Except.error Err.unauthorized
  | some kv => Except.ok kv.2

/-- Model of `logout` (main.py:88): `SESSIONS.pop(token, None)`; always succeeds with
the message "Logged out". -/
def logout (sessions : Sessions) (token : String) : Sessions × String :=
  (sessions.filter fun kv => kv.1 ≠ token, "Logged out")

/-! ## Randomness model -/

/-- A stream of random draws: Python's `random` / `uuid` modelled as an
explicit list of naturals (empty stream draws 0). -/
abbrev Rng := List Nat

def nextNat : Rng → Nat × Rng
  | [] => (0, [])
  | x :: xs => (x, xs)

/-- Models `random.randint(a, b)`: a uniform draw mapped into `[a, b]`. -/
def randint (a b : Nat) (r : Rng) : Nat × Rng :=
  (a + (nextNat r).1 % (b + 1 - a), (nextNat r).2)

/-- Models `random.choice(l)` for a general pool (with a default for the
impossible empty-pool case). -/
def chooseD (l : List α) (d : α) (r : Rng) : α × Rng :=
  (l.getD ((nextNat r).1 % l.length) d, (nextNat r).2)

/-- Models `str(uuid.uuid4())`: an opaque identifier derived from a draw. -/
def uuidStr (x : Nat) : String :=
  "u" ++ toString x

/-- Models `json.dumps(random.sample(pool, k=random.randint(kmin,kmax)))`:
sampling and JSON serialisation abstracted to an encoding of the draws. -/
def sampleJson (pool : List String) (kmin kmax : Nat) (r : Rng) : String × Rng :=
  let k := (randint kmin kmax r).1
  let s := (nextNat (randint kmin kmax r).2).1
  (String.intercalate (",")
    ((pool.drop (s % pool.length) ++ pool.take (s % pool.length)).take k),
   (nextNat (randint kmin kmax r).2).2)

/-- Model of `random_dob` (main.py:181): two draws; calendar formatting abstracted. -/
def random_dob (r : Rng) : String × Rng :=
  let age := (randint 18 90 r).1
  let d := (randint 0 364 (randint 18 90 r).2).1
  ("dob-" ++ toString age ++ "-" ++ toString d, (randint 0 364 (randint 18 90 r).2).2)

/-- Model of `random_time` (main.py:187): one draw (the hour offset); calendar
formatting abstracted. -/
def random_time (days_back hours_back : Nat) (r : Rng) : String × Rng :=
  ("t-" ++ toString days_back ++ "-" ++ toString (randint 0 hours_back r).1,
   (randint 0 hours_back r).2)

/-! ## Static pools (main.py:99-179) -/

def FIRST_NAMES_F : List String :=
  ["Sarah","Emma","Olivia","Amara","Priya","Fatima","Grace","Charlotte","Ava","Zara","Diane","Helen","Margaret","Aisha","Mei","Rosa","Ingrid","Clare","Patricia","Nadia"]

def FIRST_NAMES_M : List String :=
  ["James","Mohammed","David","Oliver","Liam","Ethan","George","Daniel","Kwame","Ahmed","Robert","Michael","Thomas","Samuel","Rajan","Tariq","Patrick","Leon","Victor","Hugo"]

def LAST_NAMES : List String :=
  ["Smith","Johnson","Williams","Brown","Jones","Taylor","Davies","Wilson","Evans","Thomas","Roberts","Walker","White","Hall","Martin","Ahmed","Khan","Patel","Singh","Okafor","Chen","Kim","Müller","Rossi","Garcia","Dubois","Andersen","Kowalski","Ferreira","Nguyen"]

def CLINICIANS : List String :=
  ["Dr. A. Patel","Dr. S. Rahman","Dr. K. Obi","Dr. L. Chen","Dr. M. Kowalski","Dr. F. Adeyemi","Dr. R. Singh","Dr. T. Williams","Dr. E. Johansson","Dr. N. Mwangi"]

def LOCATIONS : List String :=
  ["Emergency Department","Cardiology","Neurology","Oncology","General Medicine","ICU","Orthopaedics","Gastroenterology","Respiratory","Vascular Surgery"]

def ALLERGIES_POOL : List String :=
  ["Penicillin","Aspirin","Ibuprofen","Contrast media","Latex","Morphine","Codeine","Sulfonamides","None known"]

def ALERTS_POOL : List String :=
  ["Fall risk","DNACPR","Infection control","Bariatric","Implanted device","Pregnancy — confirm","Renal impairment","Contrast caution"]

/-- Tuples of (modality, body part, description, priority). -/
def STUDY_TEMPLATES : List (String × String × String × String) :=
  [("CT","Head","CT Head without contrast — query intracranial haemorrhage","Urgent"),
   ("CT","Chest","CT Pulmonary Angiography — query pulmonary embolism","Urgent"),
   ("CT","Abdomen","CT Abdomen/Pelvis with contrast — query appendicitis","Urgent"),
   ("CT","Chest","CT Chest — query lung malignancy","Routine"),
   ("CT","Head","CT Head with contrast — query brain metastases","Routine"),
   ("CT","Spine","CT Spine — query cord compression","Urgent"),
   ("CT","Abdomen","CT Abdomen — query aortic aneurysm","Emergency"),
   ("CT","Chest","CT Chest — staging non-small cell lung cancer","Routine"),
   ("CT","Head","CT Head — query subdural haematoma","Emergency"),
   ("CT","Abdomen","CT Abdomen — post-operative review","Routine"),
   ("MRI","Brain","MRI Brain with/without contrast — seizures","Urgent"),
   ("MRI","Brain","MRI Brain — query demyelination / MS","Routine"),
   ("MRI","Spine","MRI Lumbar Spine — radiculopathy","Routine"),
   ("MRI","Cardiac","MRI Cardiac — query cardiomyopathy","Routine"),
   ("MRI","Brain","MRI Brain — query acute stroke","Emergency"),
   ("MRI","Abdomen","MRI Liver — query hepatocellular carcinoma","Routine"),
   ("MRI","Pelvis","MRI Pelvis — staging rectal cancer","Routine"),
   ("MRI","Knee","MRI Knee — query meniscal tear","Routine"),
   ("XR","Chest","Chest X-ray — shortness of breath","Urgent"),
   ("XR","Chest","Chest X-ray — query pneumonia","Urgent"),
   ("XR","Chest","Chest X-ray — query pneumothorax","Emergency"),
   ("XR","Chest","Chest X-ray — routine post-procedure","Routine"),
   ("XR","Abdomen","Abdominal X-ray — query obstruction","Urgent"),
   ("XR","MSK","X-ray Hip — query fracture","Urgent"),
   ("XR","MSK","X-ray Wrist — post-trauma","Routine"),
   ("US","Abdomen","Ultrasound Abdomen — right upper quadrant pain","Urgent"),
   ("US","Pelvis","Ultrasound Pelvis — pelvic pain","Routine"),
   ("US","Neck","Ultrasound Thyroid — query nodule","Routine"),
   ("US","Vascular","Ultrasound Duplex — query DVT","Urgent"),
   ("US","Abdomen","Ultrasound Liver — abnormal LFTs","Routine"),
   ("NM","Chest","Nuclear Medicine V/Q Scan — query PE","Urgent"),
   ("NM","Bone","Nuclear Medicine Bone Scan — staging","Routine"),
   ("NM","Cardiac","Nuclear Medicine Myocardial Perfusion — angina","Routine")]

def CRITICAL_FINDINGS : List String :=
  ["Acute large vessel occlusion — immediate stroke team activation required",
   "Massive pulmonary embolism with right heart strain — urgent cardiology review",
   "Acute aortic dissection type A — immediate cardiothoracic surgery referral",
   "Tension pneumothorax — immediate decompression required",
   "Acute subdural haematoma with midline shift — urgent neurosurgical review",
   "Ruptured abdominal aortic aneurysm — immediate vascular surgery",
   "Cord compression at C4 — immediate neurosurgical referral",
   "New intracranial haemorrhage — neurosurgical review required"]

def RF_CT : List String :=
  ["No acute intracranial abnormality identified. No haemorrhage, mass effect or midline shift. Ventricles and sulci appear normal for age.",
   "There is evidence of a focal consolidative change in the right lower lobe consistent with pneumonia. No pleural effusion. Mediastinum normal.",
   "Filling defect identified within the right main pulmonary artery consistent with acute pulmonary embolism. Evidence of right heart strain."]

def RF_MRI : List String :=
  ["Multiple periventricular and juxtacortical T2/FLAIR hyperintense lesions identified, the morphology and distribution of which is consistent with demyelinating disease.",
   "No restricted diffusion to suggest acute infarction. No haemorrhage or mass lesion. Background white matter changes consistent with small vessel disease.",
   "Large heterogeneous hepatic lesion in segment 6/7 measuring 4.2 x 3.8cm. Enhancement pattern is consistent with hepatocellular carcinoma."]

def RF_XR : List String :=
  ["Heart size is at the upper limit of normal. Lung fields are clear. No pleural effusion or pneumothorax. Bony structures intact.",
   "Increased opacification in the left lower zone consistent with consolidation or collapse. Clinical correlation advised.",
   "Gas pattern within normal limits. No evidence of obstruction or perforation. No abnormal calcification."]

def RF_US : List String :=
  ["The liver is of normal size and echotexture. No focal lesion identified. Gallbladder wall not thickened. No pericholecystic fluid. CBD measures 4mm.",
   "The right common femoral vein is non-compressible with absent flow on colour Doppler, findings consistent with acute deep vein thrombosis.",
   "Normal sized uterus and ovaries. No adnexal mass or free fluid. Endometrial thickness 6mm."]

def RF_NM : List String :=
  ["Matched ventilation/perfusion defects in the right lower lobe. Low probability for pulmonary embolism.",
   "Increased tracer uptake in multiple vertebral bodies and the right 5th rib, findings consistent with widespread bony metastatic disease."]

/-- Models `REPORT_FINDINGS.get(modality, REPORT_FINDINGS["XR"])`. -/
def REPORT_FINDINGS_get (m : String) : List String :=
  if m = "CT" then RF_CT
  else if m = "MRI" then RF_MRI
  else if m = "XR" then RF_XR
  else if m = "US" then RF_US
  else if m = "NM" then RF_NM
  else RF_XR

/-- The fixed marker text of an appended critical-finding sentence. -/
def critMark : String := "⚠ CRITICAL FINDING:"

/-! ## Worklist (main.py:258-286) -/

/-- Models `CASE o.priority WHEN 'Emergency' THEN 0 WHEN 'Urgent' THEN 1 ELSE 2 END`. -/
def priorityRank (p : String) : Nat :=
  if p = "Emergency" then 0 else if p = "Urgent" then 1 else 2

/-- One row of the worklist join projection. -/
structure WRow where
  study_id : String
  modality : String
  description : String
  body_part : String
  scheduled_time : String
  acquisition_time : String
  accession : String
  report_status : String
  critical_flag : Nat
  pacs_status : String
  first_name : String
  last_name : String
  mrn : String
  dob : String
  sex : String
  allergies : String
  alerts : String
  priority : String
  ordering_clinician : String
  ordering_location : String
  indication : String
  deriving DecidableEq, Repr

def joinRow (s : Study) (p : Patient) (o : Order) : WRow :=
  ⟨s.study_id, s.modality, s.description, s.body_part, s.scheduled_time,
   s.acquisition_time, s.accession, s.report_status, s.critical_flag, s.pacs_status,
   p.first_name, p.last_name, p.mrn, p.dob, p.sex, p.allergies, p.alerts,
   o.priority, o.ordering_clinician, o.ordering_location, o.indication⟩

/-- Models `FROM studies s JOIN patients p ON s.patient_id = p.patient_id
JOIN orders o ON s.order_id = o.order_id`. -/
def worklistJoin (db : DB) : List WRow :=
  db.studies.flatMap fun s =>
    (db.patients.filter fun p => s.patient_id = p.patient_id).flatMap fun p =>
      (db.orders.filter fun o => s.order_id = o.order_id).map fun o => joinRow s p o

/-- The dynamically appended WHERE conditions (empty parameter = filter absent). -/
def rowMatches (modality status priority search : String) (r : WRow) : Bool :=
  (modality = "" || r.modality = modality) &&
  (status = "" || r.report_status = status) &&
  (priority = "" || r.priority = priority) &&
  (search = "" ||
    (likeContains (r.first_name ++ " " ++ r.last_name) search ||
     likeContains r.mrn search || likeContains r.description search))

/-- The comparator of
`ORDER BY s.critical_flag DESC, CASE o.priority ... END, s.scheduled_time DESC`. -/
def worklistLE (a b : WRow) : Bool :=
  if a.critical_flag = b.critical_flag then
    if priorityRank a.priority = priorityRank b.priority then
      strLe b.scheduled_time a.scheduled_time
    else decide (priorityRank a.priority < priorityRank b.priority)
  else decide (b.critical_flag < a.critical_flag)

/-- All rows matching the WHERE clause, in sorted order (no LIMIT/OFFSET). -/
def worklistMatching (db : DB) (modality status priority search : String) : List WRow :=
  sortByLe worklistLE ((worklistJoin db).filter (rowMatches modality status priority search))

/-- The returned page: `LIMIT limit OFFSET offset` after sorting. -/
def worklistPage (db : DB) (modality status priority search : String)
    (limit offset : Nat) : List WRow :=
  ((worklistMatching db modality status priority search).drop offset).take limit

/-- Model of `GET /api/worklist` (main.py:258): the page together with
`"total": len(rows)`. -/
def worklist (sessions : Sessions) (db : DB) (token : String)
    (modality status priority search : String) (limit offset : Nat) :
    Except Err (List WRow × Nat) × DB :=
  match verify_token sessions token with
  | Except.error e => (Except.error e, db)
  | Except.ok _ =>
    let rows := worklistPage db modality status priority search limit offset
    (Except.ok (rows, rows.length), db)

/-! ## Patient / study reads (main.py:288-313) -/

/-- Model of `GET /api/patient/(patient_id)` (main.py:288). -/
def get_patient (sessions : Sessions) (db : DB) (patient_id token : String) :
    Except Err Patient × DB :=
  match verify_token sessions token with
  | Except.error e => (Except.error e, db)
  | Except.ok _ =>
    match db.patients.find? fun p => p.patient_id = patient_id with
    | none => (Except.error Err.notFound, db)
    | some p => (Except.ok p, db)

/-- The result shape of `GET /api/study/(study_id)`. -/
structure StudyView where
  study : WRow
  series : List Series
  report : Option Report
  deriving DecidableEq, Repr

/-- Model of `GET /api/study/(study_id)` (main.py:297): the joined study row, its
series ordered by `series_number`, and the most recently created report. -/
def get_study (sessions : Sessions) (db : DB) (study_id token : String) :
    Except Err StudyView × DB :=
  match verify_token sessions token with
  | Except.error e => (Except.error e, db)
  | Except.ok _ =>
    let srow :=
      (db.studies.find? fun s => s.study_id = study_id).bind fun s =>
        (db.patients.find? fun p => s.patient_id = p.patient_id).bind fun p =>
          (db.orders.find? fun o => s.order_id = o.order_id).map fun o => joinRow s p o
    let ser := sortByLe (fun a b => decide (a.series_number ≤ b.series_number))
      (db.series.filter fun se => se.study_id = study_id)
    let rep := (sortByLe (fun a b => strLe b.created_at a.created_at)
      (db.reports.filter fun rp => rp.study_id = study_id)).head?
    match srow with
    | none => (Except.error Err.notFound, db)
    | some s => (Except.ok ⟨s, ser, rep⟩, db)

/-! ## Report create / list / update (main.py:315-356) -/

/-- The JSON body of `POST /api/report` / `PUT /api/report/(id)`:
`data.get(key, default)` is modelled by `Option`. -/
structure ReportData where
  study_id : String
  indication : Option String
  technique : Option String
  findings : Option String
  impression : Option String
  sign_status : Option String
  deriving DecidableEq, Repr

/-- Model of `POST /api/report` (main.py:315): inserts a new report row with the
session's username as author, `created_at = updated_at = now`, narrative
fields defaulted to `""` and `sign_status` defaulted to `"Draft"`.
No check of `study_id` is performed. -/
def create_report (sessions : Sessions) (db : DB) (data : ReportData)
    (token rid now : String) : Except Err String × DB :=
  match verify_token sessions token with
  | Except.error e => (Except.error e, db)
  | Except.ok username =>
    let r : Report :=
      ⟨rid, data.study_id, username, now, now,
       data.indication.getD (""), data.technique.getD (""),
       data.findings.getD (""), data.impression.getD (""),
       data.sign_status.getD ("Draft"), "[]"⟩
    (Except.ok rid, { db with reports := db.reports ++ [r] })

/-- One row of the `GET /api/reports` join projection. -/
structure RRow where
  report : Report
  first_name : String
  last_name : String
  mrn : String
  modality : String
  body_part : String
  accession : String
  deriving DecidableEq, Repr

/-- Model of `GET /api/reports` (main.py:330): every report joined with its study
and patient, ordered by `updated_at` descending. -/
def get_reports (sessions : Sessions) (db : DB) (token : String) :
    Except Err (List RRow) × DB :=
  match verify_token sessions token with
  | Except.error e => (Except.error e, db)
  | Except.ok _ =>
    let rows := db.reports.flatMap fun rp =>
      (db.studies.filter fun s => rp.study_id = s.study_id).flatMap fun s =>
        (db.patients.filter fun p => s.patient_id = p.patient_id).map fun p =>
          RRow.mk rp p.first_name p.last_name p.mrn s.modality s.body_part s.accession
    (Except.ok (sortByLe (fun a b => strLe b.report.updated_at a.report.updated_at) rows), db)

/-- The field overwrite performed by the UPDATE statement of
`PUT /api/report/(report_id)` (main.py:350). -/
def overwriteReport (data : ReportData) (now : String) (rp : Report) : Report :=
  { rp with
    indication := data.indication.getD ("")
    technique := data.technique.getD ("")
    findings := data.findings.getD ("")
    impression := data.impression.getD ("")
    sign_status := data.sign_status.getD ("Draft")
    updated_at := now }

/-- Model of `PUT /api/report/(report_id)` (main.py:345): full overwrite of the
narrative fields of every row with the given id; always returns
"Report updated" (zero affected rows is not an error). -/
def update_report (sessions : Sessions) (db : DB) (report_id : String)
    (data : ReportData) (token now : String) : Except Err String × DB :=
  match verify_token sessions token with
  | Except.error e => (Except.error e, db)
  | Except.ok _ =>
    (Except.ok ("Report updated"),
     { db with reports := db.reports.map fun rp =>
         if rp.report_id = report_id then overwriteReport data now rp else rp })

/-! ## Export / import (main.py:368-419) -/

/-- One row of the export projection (main.py:372). -/
structure ExportRow where
  mrn : String
  first_name : String
  last_name : String
  dob : String
  sex : String
  modality : String
  description : String
  body_part : String
  scheduled_time : String
  report_status : String
  critical_flag : Nat
  priority : String
  ordering_clinician : String
  deriving DecidableEq, Repr

def exportJoin (db : DB) : List ExportRow :=
  db.studies.flatMap fun s =>
    (db.patients.filter fun p => s.patient_id = p.patient_id).flatMap fun p =>
      (db.orders.filter fun o => s.order_id = o.order_id).map fun o =>
        ⟨p.mrn, p.first_name, p.last_name, p.dob, p.sex,
         s.modality, s.description, s.body_part, s.scheduled_time,
         s.report_status, s.critical_flag, o.priority, o.ordering_clinician⟩

/-- The exported rows, `ORDER BY s.scheduled_time DESC`. -/
def exportRows (db : DB) : List ExportRow :=
  sortByLe (fun a b => strLe b.scheduled_time a.scheduled_time) (exportJoin db)

/-- Model of `GET /api/export` (main.py:368); the JSON/CSV serialisation of the row
list is abstracted (the same rows back the CSV branch). -/
def export_data (sessions : Sessions) (db : DB) (token fmt : String) :
    Except Err (List ExportRow) × DB :=
  match verify_token sessions token with
  | Except.error e => (Except.error e, db)
  | Except.ok _ => (Except.ok (exportRows db), db)

/-- A patient-shaped row of an import file; `row.get(key, default)` is
modelled by `Option`. -/
structure ImportRow where
  mrn : Option String
  first_name : Option String
  last_name : Option String
  dob : Option String
  sex : Option String
  deriving DecidableEq, Repr

/-- The export-to-import reading of an exported JSON row. -/
def toImportRow (e : ExportRow) : ImportRow :=
  ⟨some e.mrn, some e.first_name, some e.last_name, some e.dob, some e.sex⟩

/-- The patient row built from one import row (main.py:409-411). -/
def importPatient (row : ImportRow) (pid mrn : String) : Patient :=
  ⟨pid, mrn, row.first_name.getD ("Unknown"), row.last_name.getD ("Unknown"),
   row.dob.getD ("1970-01-01"), row.sex.getD ("U"), "", "[]", "[]", "[]"⟩

/-- The per-row loop of `POST /api/import` (main.py:405-413): draw a fresh
patient id and (eagerly, as Python's `dict.get` does) a fallback MRN, then
insert unless the MRN is already present (`except: pass`). -/
def importLoop : List ImportRow → DB → Rng → Nat → DB × Rng × Nat
  | [], db, r, count => (db, r, count)
  | row :: rest, db, r, count =>
    let pid := uuidStr (nextNat r).1
    let r2 := (randint 1000000 9999999 (nextNat r).2).2
    let mrn := row.mrn.getD ("KCH" ++ toString (randint 1000000 9999999 (nextNat r).2).1)
    if db.patients.any fun p => p.mrn = mrn then
      importLoop rest db r2 count
    else
      importLoop rest
        { db with patients := db.patients ++ [importPatient row pid mrn] }
        r2 (count + 1)

/-- Model of `POST /api/import` (main.py:392): `parsed` is the outcome of decoding
the uploaded file (JSON or CSV); a parse failure raises Bad-Request with
no insert; otherwise the rows are processed one by one. -/
def import_data (sessions : Sessions) (db : DB) (token : String)
    (parsed : Except String (List ImportRow)) (r : Rng) : Except Err Nat × DB :=
  match verify_token sessions token with
  | Except.error e => (Except.error e, db)
  | Except.ok _ =>
    match parsed with
    | Except.error _ => (Except.error Err.badRequest, db)
    | Except.ok rows =>
      (Except.ok (importLoop rows db r 0).2.2, (importLoop rows db r 0).1)

/-! ## Stats (main.py:491-502) -/

structure Stats where
  total : Nat
  critical : Nat
  unreported : Nat
  patients : Nat
  modalities : List (String × Nat)
  deriving DecidableEq, Repr

/-- Model of `GET /api/stats` (main.py:491). -/
def get_stats (sessions : Sessions) (db : DB) (token : String) :
    Except Err Stats × DB :=
  match verify_token sessions token with
  | Except.error e => (Except.error e, db)
  | Except.ok _ =>
    (Except.ok
      ⟨db.studies.length,
       (db.studies.filter fun s => s.critical_flag = 1).length,
       (db.studies.filter fun s => s.report_status = "Unreported").length,
       db.patients.length,
       ((db.studies.map fun s => s.modality).dedup).map fun m =>
         (m, (db.studies.filter fun s => s.modality = m).length)⟩, db)

/-! ## ARIA AI endpoints (main.py:423-488)

The OpenAI client is an opaque external collaborator: each call is a
function from the assembled request to `Except String` of the provider's
output (`.error` = the exception the Python code catches). -/

/-- Model of `POST /api/aria/query` (main.py:423): provider failure degrades to an
inline message, still a 200 response. -/
def aria_query (sessions : Sessions) (db : DB) (query token : String)
    (provider : String → Except String String) : Except Err String × DB :=
  match verify_token sessions token with
  | Except.error e => (Except.error e, db)
  | Except.ok _ =>
    match provider query with
    | Except.ok text => (Except.ok text, db)
    | Except.error e => (Except.ok ("ARIA is temporarily unavailable: " ++ e), db)

/-- The prompt template of `POST /api/aria/assist-report` (main.py:444). -/
def assistPrompt (modality body_part indication findings : String) : String :=
  "Modality: " ++ modality ++ " Body Part: " ++ body_part ++
  " Clinical Indication: " ++ indication ++ " Findings: " ++ findings

/-- Model of `POST /api/aria/assist-report` (main.py:441): provider failure is a
server error. -/
def aria_assist_report (sessions : Sessions) (db : DB)
    (modality body_part indication findings token : String)
    (provider : String → Except String String) : Except Err String × DB :=
  match verify_token sessions token with
  | Except.error e => (Except.error e, db)
  | Except.ok _ =>
    match provider (assistPrompt modality body_part indication findings) with
    | Except.ok text => (Except.ok text, db)
    | Except.error _ => (Except.error Err.serverError, db)

/-- Model of `POST /api/aria/transcribe` (main.py:467): audio bytes modelled as an
opaque string; provider failure is a server error. -/
def aria_transcribe (sessions : Sessions) (db : DB) (audio token : String)
    (provider : String → Except String String) : Except Err String × DB :=
  match verify_token sessions token with
  | Except.error e => (Except.error e, db)
  | Except.ok _ =>
    match provider audio with
    | Except.ok text => (Except.ok text, db)
    | Except.error _ => (Except.error Err.serverError, db)

/-- Model of `POST /api/aria/speak` (main.py:478): the synthesized audio is an
opaque string; provider failure is a server error. -/
def aria_speak (sessions : Sessions) (db : DB) (text voice token : String)
    (provider : String → String → Except String String) : Except Err String × DB :=
  match verify_token sessions token with
  | Except.error e => (Except.error e, db)
  | Except.ok _ =>
    match provider (voice) text with
    | Except.ok audio => (Except.ok audio, db)
    | Except.error _ => (Except.error Err.serverError, db)

/-! ## Synthetic data generator (main.py:191-254)

The inner study loop never reads the database, so it is modelled as a pure
producer of a `StudyBlock` (the rows inserted for one study); the driver
appends the block's rows to the respective tables in insertion order. -/

/-- The rows inserted for one generated study. -/
structure StudyBlock where
  order : Order
  study : Study
  series : List Series
  reports : List Report
  deriving DecidableEq, Repr

/-- Models `f"Query {tmpl[2].split('—')[-1].strip() if '—' in tmpl[2] else tmpl[1]}"`. -/
def indicationOf (desc body : String) : String :=
  "Query " ++
    (if containsSub ("—").toList desc.toList then
       ((desc.splitOn ("—")).getLastD ("")).trim
     else body)

/-- The series insert loop (main.py:231-235): `n` series starting at
sequence number `sn`. -/
def genSeries (sid : String) : Nat → Nat → Rng → List Series × Rng
  | 0, _, r => ([], r)
  | n + 1, sn, r =>
    let su := (nextNat r).1
    let sdP := chooseD ["Axial","Sagittal","Coronal","MIP","Scout"] ("") (nextNat r).2
    let restP := genSeries sid n (sn + 1) sdP.2
    (⟨uuidStr su, sid, sn, "Series " ++ toString sn ++ " — " ++ sdP.1⟩ :: restP.1, restP.2)

/-- One iteration of the per-patient study loop (main.py:213-250). -/
def genStudy (pid : String) (critical_pct : Nat) (r : Rng) : StudyBlock × Rng :=
  let tmplP := chooseD STUDY_TEMPLATES ("", "", "", "") r
  let tmpl := tmplP.1
  let cxP := nextNat tmplP.2
  let is_critical := cxP.1 % 100 < critical_pct
  let rsP :=
    chooseD ["Unreported","Unreported","Unreported","Preliminary","Final","Final"] ("") cxP.2
  let report_status := rsP.1
  let oxP := nextNat rsP.2
  let oid := uuidStr oxP.1
  let sxP := nextNat oxP.2
  let sid := uuidStr sxP.1
  let clinP := chooseD CLINICIANS ("") sxP.2
  let locP := chooseD LOCATIONS ("") clinP.2
  let odP := randint 0 7 locP.2
  let otP := random_time odP.1 12 odP.2
  let o : Order := ⟨oid, pid, clinP.1, locP.1, indicationOf tmpl.2.2.1 tmpl.2.1,
    tmpl.2.2.2, "Active", otP.1⟩
  let sdP := randint 0 3 otP.2
  let stP := random_time sdP.1 12 sdP.2
  let adP := randint 0 2 stP.2
  let atP := random_time adP.1 12 adP.2
  let accP := randint 10000000 99999999 atP.2
  let st : Study := ⟨sid, pid, oid, tmpl.1, tmpl.2.2.1, tmpl.2.1,
    stP.1, atP.1, "ACC" ++ toString accP.1, report_status,
    if is_critical then 1 else 0, "Available"⟩
  let nserP := randint 1 4 accP.2
  let serP := genSeries sid nserP.1 1 nserP.2
  if report_status = "Preliminary" ∨ report_status = "Final" then
    let baseP := chooseD (REPORT_FINDINGS_get tmpl.1) ("") serP.2
    let fP : String × Rng :=
      if is_critical then
        let cfP := chooseD CRITICAL_FINDINGS ("") baseP.2
        (baseP.1 ++ "\n\n" ++ critMark ++ " " ++ cfP.1, cfP.2)
      else (baseP.1, baseP.2)
    let rxP := nextNat fP.2
    let authP := chooseD CLINICIANS ("") rxP.2
    let ctP := random_time 1 12 authP.2
    let utP := random_time 0 12 ctP.2
    let contrP := nextNat utP.2
    let rp : Report := ⟨uuidStr rxP.1, sid, authP.1, ctP.1, utP.1,
      "Query " ++ tmpl.2.1 ++ " pathology",
      tmpl.1 ++ " " ++ tmpl.2.1 ++
        (if contrP.1 % 2 = 0 then " with contrast" else " without contrast"),
      fP.1,
      "Findings as above. Clinical correlation advised. Please discuss with reporting radiologist if urgent review required.",
      report_status, "[]"⟩
    (⟨o, st, serP.1, [rp]⟩, contrP.2)
  else
    (⟨o, st, serP.1, []⟩, serP.2)

/-- Runs `n` iterations of the study loop. -/
def genStudies (pid : String) (critical_pct : Nat) :
    Nat → Rng → List StudyBlock × Rng
  | 0, r => ([], r)
  | n + 1, r =>
    let bP := genStudy pid critical_pct r
    let restP := genStudies pid critical_pct n bP.2
    (bP.1 :: restP.1, restP.2)

/-- Append the rows of one study block to the database tables. -/
def appendBlock (db : DB) (b : StudyBlock) : DB :=
  { db with
    orders := db.orders ++ [b.order]
    studies := db.studies ++ [b.study]
    series := db.series ++ b.series
    reports := db.reports ++ b.reports }

def appendBlocks (db : DB) (bs : List StudyBlock) : DB :=
  bs.foldl appendBlock db

/-- Models `FIRST_NAMES_M if sex == "M" else FIRST_NAMES_F`. -/
def firstNamePool (sex : String) : List String :=
  if sex = "M" then FIRST_NAMES_M else FIRST_NAMES_F

/-- One iteration of the patient loop (main.py:196-250): draw the patient
fields, then insert-or-skip; on a duplicate MRN the `except: continue`
skips the study generation for this patient entirely. -/
def genPatient (studies_per_patient critical_pct : Nat) (db : DB) (r : Rng) :
    DB × Rng × Nat × Nat :=
  let sexP := chooseD ["M","F","M","F","M"] ("") r
  let fnP := chooseD (firstNamePool sexP.1) ("") sexP.2
  let lnP := chooseD LAST_NAMES ("") fnP.2
  let pxP := nextNat lnP.2
  let pid := uuidStr pxP.1
  let mxP := randint 1000000 9999999 pxP.2
  let mrn := "KCH" ++ toString mxP.1
  let alP := sampleJson ALLERGIES_POOL 1 3 mxP.2
  let aleP := sampleJson ALERTS_POOL 0 2 alP.2
  let dobP := random_dob aleP.2
  let p1P := randint 100 999 dobP.2
  let p2P := randint 100000 999999 p1P.2
  let phone := "+44 7" ++ toString p1P.1 ++ " " ++ toString p2P.1
  if db.patients.any fun p => p.mrn = mrn then
    (db, p2P.2, 0, 0)
  else
    let db1 := { db with patients := db.patients ++
      [⟨pid, mrn, fnP.1, lnP.1, dobP.1, sexP.1, phone, alP.1, aleP.1, "[]"⟩] }
    let nstP := randint 1 studies_per_patient p2P.2
    let blocksP := genStudies pid critical_pct nstP.1 nstP.2
    (appendBlocks db1 blocksP.1, blocksP.2, 1, blocksP.1.length)

/-- Model of `generate_patients_and_studies` (main.py:191): `n_patients` iterations
of the patient loop, returning the counters `(patients, studies)`. -/
def generate_patients_and_studies : Nat → Nat → Nat → DB → Rng → DB × Rng × Nat × Nat
  | 0, _, _, db, r => (db, r, 0, 0)
  | n + 1, spp, pct, db, r =>
    let g1 := genPatient spp pct db r
    let g2 := generate_patients_and_studies n spp pct g1.1 g1.2.1
    (g2.1, g2.2.1, g1.2.2.1 + g2.2.2.1, g1.2.2.2 + g2.2.2.2)

/-- The JSON body of `POST /api/generate` with its defaults. -/
structure GenBody where
  patients : Option Nat
  studies_per_patient : Option Nat
  critical_pct : Option Nat
  deriving DecidableEq, Repr

/-- Model of `POST /api/generate` (main.py:358). -/
def generate_data (sessions : Sessions) (db : DB) (data : GenBody)
    (token : String) (r : Rng) : Except Err (Nat × Nat) × DB :=
  match verify_token sessions token with
  | Except.error e => (Except.error e, db)
  | Except.ok _ =>
    let g := generate_patients_and_studies (data.patients.getD 50)
      (data.studies_per_patient.getD 3) (data.critical_pct.getD 15) db r
    (Except.ok (g.2.2.1, g.2.2.2), g.1)

/-! ## Specification-side predicates -/

/-- The worklist ordering contract: `a` may precede `b` iff `a` beats `b`
on the critical flag, or ties it and beats it on priority rank, or ties
both and is scheduled no earlier (scheduled_time descending). -/
def WorklistOrdered (a b : WRow) : Prop :=
  b.critical_flag < a.critical_flag ∨
    (a.critical_flag = b.critical_flag ∧
      (priorityRank a.priority < priorityRank b.priority ∨
        (priorityRank a.priority = priorityRank b.priority ∧
          strLe b.scheduled_time a.scheduled_time = true)))

/-- The structural contract of one generated study: at least one child
series (all referencing the study), a report exactly for Preliminary/Final
studies, and the critical-finding sentence in the report's findings exactly
when the study's critical flag is set. -/
def BlockOK (b : StudyBlock) : Prop :=
  b.series ≠ [] ∧
  (∀ se ∈ b.series, se.study_id = b.study.study_id) ∧
  (b.reports ≠ [] ↔
    (b.study.report_status = "Preliminary" ∨ b.study.report_status = "Final")) ∧
  ∀ rp ∈ b.reports, rp.study_id = b.study.study_id ∧
    (containsSub critMark.toList rp.findings.toList = true ↔ b.study.critical_flag = 1)

/-- A patient is covered by the export: it has at least one study that
joins with an order (and therefore produces an export row). -/
def coveredB (db : DB) (p : Patient) : Bool :=
  db.studies.any fun s =>
    (decide (s.patient_id = p.patient_id)) &&
      db.orders.any fun o => decide (s.order_id = o.order_id)

/-- Count of values of `l` not in `seen`, counting each value once (the
number of inserts `importLoop` performs). -/
def newCount (seen : Finset String) : List String → Nat
  | [] => 0
  | m :: ms => if m ∈ seen then newCount seen ms else newCount (insert m seen) ms + 1

/-! ## Concrete instances for witnesses and counterexamples -/

def pat1 : Patient := ⟨"P1", "M1", "Ann", "Lee", "1980-01-01", "F", "", "[]", "[]", "[]"⟩

def pat2 : Patient := ⟨"P2", "M2", "Bob", "Day", "1975-05-05", "M", "", "[]", "[]", "[]"⟩

def ord1 : Order := ⟨"O1", "P1", "Dr. A. Patel", "Emergency Department", "Query head", "Urgent", "Active", "t-0-1"⟩

def stu1 : Study := ⟨"S1", "P1", "O1", "CT", "CT Head", "Head", "2024-01-02 10:00", "2024-01-02 11:00", "ACC1", "Unreported", 0, "Available"⟩

def stu2 : Study := ⟨"S2", "P1", "O1", "CT", "CT Chest", "Chest", "2024-01-01 10:00", "2024-01-01 11:00", "ACC2", "Unreported", 0, "Available"⟩

def rep1 : Report := ⟨"R1", "S1", "david", "c1", "u1", "i", "t", "f", "imp", "Final", "[]"⟩

/-- Two studies of one patient: the worklist page with `limit 1` has one
row while two rows match. -/
def dbC3 : DB := ⟨[pat1], [ord1], [stu1, stu2], [], []⟩

/-- Two patients, only the first with a (study, order) pair: the export
covers one patient while the table holds two. -/
def dbC6 : DB := ⟨[pat1, pat2], [ord1], [stu1], [], []⟩

/-- A database with one report row. -/
def dbC5 : DB := ⟨[pat1], [ord1], [stu1], [], [rep1]⟩

/-- The one-entry session store used by witnesses. -/
def sess1 : Sessions := [("tok", "david")]

/-! # Theorems -/

/-! ## Lexicographic comparison -/

theorem lexLe_refl : ∀ l : List Char, lexLe l l = true
  | [] => rfl
  | a :: as => by simp [lexLe, lexLe_refl as]

theorem lexLe_total : ∀ a b : List Char, lexLe a b = true ∨ lexLe b a = true
  | [], _ => Or.inl rfl
  | _ :: _, [] => Or.inr rfl
  | a :: as, b :: bs => by
    by_cases hab : a = b
    · subst hab
      simpa [lexLe] using lexLe_total as bs
    · rcases lt_trichotomy a b with h | h | h
      · exact Or.inl (by simp [lexLe, hab, h])
      · exact absurd h hab
      · exact Or.inr (by simp [lexLe, Ne.symm hab, h])

theorem lexLe_trans : ∀ a b c : List Char,
    lexLe a b = true → lexLe b c = true → lexLe a c = true
  | [], _, _, _, _ => rfl
  | a :: as, [], c, h, _ => by simp [lexLe] at h
  | a :: as, b :: bs, [], _, h2 => by simp [lexLe] at h2
  | a :: as, b :: bs, c :: cs, h1, h2 => by
    by_cases hab : a = b <;> by_cases hbc : b = c
    · subst hab; subst hbc
      simp only [lexLe, if_pos rfl] at h1 h2 ⊢
      exact lexLe_trans as bs cs h1 h2
    · subst hab
      simp only [lexLe, if_neg hbc] at h2
      simp only [lexLe, if_neg hbc]
      exact h2
    · subst hbc
      simp only [lexLe, if_neg hab] at h1
      simp only [lexLe, if_neg hab]
      exact h1
    · simp only [lexLe, if_neg hab] at h1
      simp only [lexLe, if_neg hbc] at h2
      have hac : a < c := lt_trans (of_decide_eq_true h1) (of_decide_eq_true h2)
      simp [lexLe, ne_of_lt hac, hac]

theorem strLe_total (a b : String) : strLe a b = true ∨ strLe b a = true :=
  lexLe_total a.toList b.toList

theorem strLe_trans (a b c : String) :
    strLe a b = true → strLe b c = true → strLe a c = true :=
  lexLe_trans a.toList b.toList c.toList

/-! ## Insertion sort -/

theorem perm_insertSorted (le : α → α → Bool) (x : α) :
    ∀ l : List α, (insertSorted le x l).Perm (x :: l)
  | [] => List.Perm.refl _
  | y :: ys => by
    simp only [insertSorted]
    split
    · exact List.Perm.refl _
    · exact ((perm_insertSorted le x ys).cons y).trans (List.Perm.swap x y ys)

theorem perm_sortByLe (le : α → α → Bool) : ∀ l : List α, (sortByLe le l).Perm l
  | [] => List.Perm.refl _
  | x :: xs =>
    (perm_insertSorted le x (sortByLe le xs)).trans ((perm_sortByLe le xs).cons x)

theorem pairwise_insertSorted (le : α → α → Bool)
    (htot : ∀ a b, le a b = true ∨ le b a = true)
    (htrans : ∀ a b c, le a b = true → le b c = true → le a c = true) (x : α) :
    ∀ l : List α, l.Pairwise (fun a b => le a b = true) →
      (insertSorted le x l).Pairwise (fun a b => le a b = true)
  | [], _ => by simp [insertSorted]
  | y :: ys, h => by
    rcases List.pairwise_cons.1 h with ⟨hy, hys⟩
    simp only [insertSorted]
    split
    · next hxy =>
      refine List.pairwise_cons.2 ⟨?_, h⟩
      intro z hz
      rcases List.mem_cons.1 hz with rfl | hz2
      · exact hxy
      · exact htrans x y z hxy (hy z hz2)
    · next hxy =>
      have hyx : le y x = true := (htot x y).resolve_left (by simpa using hxy)
      refine List.pairwise_cons.2 ⟨?_, pairwise_insertSorted le htot htrans x ys hys⟩
      intro z hz
      rcases List.mem_cons.1 ((perm_insertSorted le x ys).mem_iff.1 hz) with rfl | hz2
      · exact hyx
      · exact hy z hz2

theorem pairwise_sortByLe (le : α → α → Bool)
    (htot : ∀ a b, le a b = true ∨ le b a = true)
    (htrans : ∀ a b c, le a b = true → le b c = true → le a c = true) :
    ∀ l : List α, (sortByLe le l).Pairwise (fun a b => le a b = true)
  | [] => List.Pairwise.nil
  | x :: xs =>
    pairwise_insertSorted le htot htrans x _ (pairwise_sortByLe le htot htrans xs)

/-! ## The worklist comparator -/

theorem worklistLE_iff (a b : WRow) : worklistLE a b = true ↔ WorklistOrdered a b := by
  unfold worklistLE WorklistOrdered
  by_cases h1 : a.critical_flag = b.critical_flag
  · by_cases h2 : priorityRank a.priority = priorityRank b.priority
    · simp only [if_pos h1, if_pos h2]
      constructor
      · intro h
        exact Or.inr ⟨h1, Or.inr ⟨h2, h⟩⟩
      · intro h
        rcases h with h | ⟨_, h | ⟨_, h⟩⟩
        · omega
        · omega
        · exact h
    · simp only [if_pos h1, if_neg h2, decide_eq_true_eq]
      constructor
      · intro h
        exact Or.inr ⟨h1, Or.inl h⟩
      · intro h
        rcases h with h | ⟨_, h | ⟨h, _⟩⟩
        · omega
        · exact h
        · exact absurd h h2
  · simp only [if_neg h1, decide_eq_true_eq]
    constructor
    · intro h
      exact Or.inl h
    · intro h
      rcases h with h | ⟨h, _⟩
      · exact h
      · exact absurd h h1

theorem worklistOrdered_total (a b : WRow) : WorklistOrdered a b ∨ WorklistOrdered b a := by
  unfold WorklistOrdered
  rcases Nat.lt_trichotomy a.critical_flag b.critical_flag with h | h | h
  · exact Or.inr (Or.inl h)
  · rcases Nat.lt_trichotomy (priorityRank a.priority) (priorityRank b.priority) with h2 | h2 | h2
    · exact Or.inl (Or.inr ⟨h, Or.inl h2⟩)
    · rcases strLe_total a.scheduled_time b.scheduled_time with h3 | h3
      · exact Or.inr (Or.inr ⟨h.symm, Or.inr ⟨h2.symm, h3⟩⟩)
      · exact Or.inl (Or.inr ⟨h, Or.inr ⟨h2, h3⟩⟩)
    · exact Or.inr (Or.inr ⟨h.symm, Or.inl h2⟩)
  · exact Or.inl (Or.inl h)

theorem worklistOrdered_trans (a b c : WRow) :
    WorklistOrdered a b → WorklistOrdered b c → WorklistOrdered a c := by
  intro hab hbc
  unfold WorklistOrdered at hab hbc ⊢
  rcases hab with h | ⟨hf, hab⟩
  · rcases hbc with h2 | ⟨hf2, _⟩
    · exact Or.inl (by omega)
    · exact Or.inl (by omega)
  · rcases hbc with h2 | ⟨hf2, hbc⟩
    · exact Or.inl (by omega)
    · refine Or.inr ⟨hf.trans hf2, ?_⟩
      rcases hab with h3 | ⟨hr, hs⟩
      · rcases hbc with h4 | ⟨hr2, _⟩
        · exact Or.inl (by omega)
        · exact Or.inl (by omega)
      · rcases hbc with h4 | ⟨hr2, hs2⟩
        · exact Or.inl (by omega)
        · exact Or.inr ⟨hr.trans hr2, strLe_trans _ _ _ hs2 hs⟩

theorem worklistLE_total (a b : WRow) : worklistLE a b = true ∨ worklistLE b a = true := by
  rcases worklistOrdered_total a b with h | h
  · exact Or.inl ((worklistLE_iff a b).2 h)
  · exact Or.inr ((worklistLE_iff b a).2 h)

theorem worklistLE_trans (a b c : WRow) :
    worklistLE a b = true → worklistLE b c = true → worklistLE a c = true := by
  intro h1 h2
  exact (worklistLE_iff a c).2
    (worklistOrdered_trans a b c ((worklistLE_iff a b).1 h1) ((worklistLE_iff b c).1 h2))

/-- C1: for every worklist request, the returned page is sorted in the
exact precedence critical-flag descending, then priority rank
Emergency(0) < Urgent(1) < Routine(2) = anything else, then
scheduled_time descending. -/
theorem worklist_page_ordered (db : DB) (modality status priority search : String)
    (limit offset : Nat) :
    (worklistPage db modality status priority search limit offset).Pairwise WorklistOrdered := by
  have h := pairwise_sortByLe worklistLE worklistLE_total worklistLE_trans
    ((worklistJoin db).filter (rowMatches modality status priority search))
  have h2 : (worklistMatching db modality status priority search).Pairwise WorklistOrdered :=
    h.imp fun hx => (worklistLE_iff _ _).1 hx
  exact List.Pairwise.sublist ((List.take_sublist _ _).trans (List.drop_sublist _ _)) h2

/-- C3: the "total" field of every successful worklist response equals the
number of rows of the returned page; and (second conjunct) it is not the
number of rows matching the filters: in `dbC3` with `limit 1` the page —
hence the reported total — has one row while two rows match. -/
theorem worklist_total_counts_page :
    (∀ (sessions : Sessions) (db : DB) (token modality status priority search : String)
        (limit offset : Nat) (page : List WRow) (total : Nat),
      worklist sessions db token modality status priority search limit offset =
        (Except.ok (page, total), db) → total = page.length) ∧
    ((worklistPage dbC3 ("") "" "" "" 1 0).length = 1 ∧
      (worklistMatching dbC3 ("") "" "" "").length = 2) := by
  constructor
  · intro sessions db token modality status priority search limit offset page total h
    unfold worklist at h
    cases hv : verify_token sessions token with
    | error e => rw [hv] at h; exact absurd (congrArg Prod.fst h) (by simp)
    | ok u =>
      rw [hv] at h
      simp only [Prod.mk.injEq, Except.ok.injEq] at h
      obtain ⟨⟨hp, ht⟩, -⟩ := h
      rw [← ht, ← hp]
  · exact ⟨by decide, by decide⟩

/-- C3 witness: the first conjunct applied to the concrete database
`dbC3`, where the page under `limit 1` has exactly one row. -/
theorem worklist_total_counts_page_witness :
    (1 : Nat) = (worklistPage dbC3 ("") "" "" "" 1 0).length :=
  worklist_total_counts_page.1 sess1 dbC3 ("tok") "" "" "" "" 1 0
    (worklistPage dbC3 ("") "" "" "" 1 0) 1 rfl

/-- C9: logout removes the token's mapping and always succeeds with
"Logged out"; a second logout with the same (now absent) token also
succeeds and leaves the session store unchanged. -/
theorem logout_idempotent (sessions : Sessions) (token : String) :
    lookupToken (logout sessions token).1 token = none ∧
    (logout sessions token).2 = "Logged out" ∧
    logout (logout sessions token).1 token = ((logout sessions token).1, "Logged out") := by
  refine ⟨?_, rfl, ?_⟩
  · have h : (List.filter (fun kv => kv.1 ≠ token) sessions).find?
        (fun kv => kv.1 = token) = none := by
      refine List.find?_eq_none.2 ?_
      intro kv hkv
      have h2 := (List.mem_filter.1 hkv).2
      simp only [ne_eq, decide_not, Bool.not_eq_eq_eq_not, Bool.not_true,
        decide_eq_false_iff_not] at h2
      simpa using h2
    simp [logout, lookupToken, h]
  · have h : List.filter (fun kv => kv.1 ≠ token) ((logout sessions token).1) =
        (logout sessions token).1 :=
      List.filter_eq_self.2 fun a ha => (List.mem_filter.1 ha).2
    simp only [logout] at h ⊢
    rw [h]

/-- C2: every `/api/*` operation called with a token absent from the
session store fails with Unauthorized and returns the database unchanged
(the session store is passed read-only: no handler writes to it). -/
theorem api_unknown_token_unauthorized (sessions : Sessions) (db : DB)
    (token modality status priority search : String) (limit offset : Nat)
    (patient_id study_id : String) (data : ReportData) (rid now report_id : String)
    (gen : GenBody) (r : Rng) (fmt : String) (parsed : Except String (List ImportRow))
    (query mod2 bp ind fnd audio text voice : String)
    (prov : String → Except String String) (prov2 : String → String → Except String String)
    (h : lookupToken sessions token = none) :
    worklist sessions db token modality status priority search limit offset =
      (Except.error Err.unauthorized, db) ∧
    get_patient sessions db patient_id token = (Except.error Err.unauthorized, db) ∧
    get_study sessions db study_id token = (Except.error Err.unauthorized, db) ∧
    create_report sessions db data token rid now = (Except.error Err.unauthorized, db) ∧
    update_report sessions db report_id data token now = (Except.error Err.unauthorized, db) ∧
    get_reports sessions db token = (Except.error Err.unauthorized, db) ∧
    generate_data sessions db gen token r = (Except.error Err.unauthorized, db) ∧
    export_data sessions db token fmt = (Except.error Err.unauthorized, db) ∧
    import_data sessions db token parsed r = (Except.error Err.unauthorized, db) ∧
    get_stats sessions db token = (Except.error Err.unauthorized, db) ∧
    aria_query sessions db query token prov = (Except.error Err.unauthorized, db) ∧
    aria_assist_report sessions db mod2 bp ind fnd token prov =
      (Except.error Err.unauthorized, db) ∧
    aria_transcribe sessions db audio token prov = (Except.error Err.unauthorized, db) ∧
    aria_speak sessions db text voice token prov2 = (Except.error Err.unauthorized, db) := by
  have hf : sessions.find? (fun kv => kv.1 = token) = none := by
    unfold lookupToken at h
    exact Option.map_eq_none'.1 h
  have hv : verify_token sessions token = Except.error Err.unauthorized := by
    unfold verify_token
    rw [hf]
  refine ⟨?_, ?_, ?_, ?_, ?_, ?_, ?_, ?_, ?_, ?_, ?_, ?_, ?_, ?_⟩ <;>
    simp only [worklist, get_patient, get_study, create_report, update_report,
      get_reports, generate_data, export_data, import_data, get_stats, aria_query,
      aria_assist_report, aria_transcribe, aria_speak, hv]

/-- C2 witness: the theorem applied to an empty session store and a
concrete database. -/
theorem api_unknown_token_unauthorized_witness :
    worklist [] dbC3 ("tok") "" "" "" "" 1 0 = (Except.error Err.unauthorized, dbC3) :=
  (api_unknown_token_unauthorized [] dbC3 ("tok") "" "" "" "" 1 0 "P1" "S1"
    ⟨"S1", none, none, none, none, none⟩ "r" "n" "R1" ⟨none, none, none⟩ [] "json"
    (Except.ok []) "q" "CT" "Head" "i" "f" "a" "t" "nova"
    (fun _ => Except.ok ("")) (fun _ _ => Except.ok ("")) rfl).1

/-- C4 counterexample: `create_report` succeeds against a database with no
studies at all, inserting a report row whose `study_id` refers to no
study — the operation does not require an existing `study_id`. -/
theorem create_report_succeeds_without_study :
    (create_report sess1 DB.empty ⟨"S1", none, none, none, none, none⟩ "tok" "R1" "now").1 =
      Except.ok ("R1") ∧
    DB.empty.studies = [] ∧
    ∃ rp ∈ (create_report sess1 DB.empty ⟨"S1", none, none, none, none, none⟩
        "tok" "R1" "now").2.reports, rp.study_id = "S1" := by
  refine ⟨rfl, rfl, ?_⟩
  exact ⟨⟨"R1", "S1", "david", "now", "now", "", "", "", "", "Draft", "[]"⟩, by decide, rfl⟩

/-- C4 amended: create report performs no `study_id` validation: for every
database (in particular one containing no study with the supplied id) and
every authenticated token, the call succeeds and appends a report row
referencing the supplied `study_id` as is. -/
theorem create_report_inserts_unchecked (sessions : Sessions) (db : DB)
    (data : ReportData) (token rid now u : String)
    (hauth : verify_token sessions token = Except.ok u) :
    create_report sessions db data token rid now =
      (Except.ok rid,
       { db with reports := db.reports ++
           [⟨rid, data.study_id, u, now, now, data.indication.getD (""),
             data.technique.getD (""), data.findings.getD (""),
             data.impression.getD (""), data.sign_status.getD ("Draft"), "[]"⟩] }) := by
  unfold create_report
  rw [hauth]

/-- C4 amended witness: the amended theorem at a study-free database. -/
theorem create_report_inserts_unchecked_witness :
    create_report sess1 DB.empty ⟨"S1", none, none, none, none, none⟩ "tok" "R1" "now" =
      (Except.ok ("R1"),
       { DB.empty with reports := DB.empty.reports ++
           [⟨"R1", "S1", "david", "now", "now", "", "", "", "", "Draft", "[]"⟩] }) :=
  create_report_inserts_unchecked sess1 DB.empty ⟨"S1", none, none, none, none, none⟩
    "tok" "R1" "now" "david" rfl

/-- C5: updating a report whose `report_id` matches no stored report
completes with the ordinary success message and leaves every report row
(and the whole database) unchanged — a silent no-op, no Not-Found. -/
theorem update_report_missing_id_silent_noop (sessions : Sessions) (db : DB)
    (report_id : String) (data : ReportData) (token now u : String)
    (hauth : verify_token sessions token = Except.ok u)
    (hmiss : ∀ rp ∈ db.reports, rp.report_id ≠ report_id) :
    update_report sessions db report_id data token now =
      (Except.ok ("Report updated"), db) := by
  unfold update_report
  rw [hauth]
  have h : (db.reports.map fun rp =>
      if rp.report_id = report_id then overwriteReport data now rp else rp) = db.reports := by
    conv_rhs => rw [← List.map_id db.reports]
    exact List.map_congr_left fun rp hrp => by simp [hmiss rp hrp]
  rw [h]

/-- C5 witness: updating the absent id "R9" in a store holding only "R1"
returns success and the unchanged database. -/
theorem update_report_missing_id_silent_noop_witness :
    update_report sess1 dbC5 ("R9") ⟨"S1", none, none, none, none, none⟩ "tok" "now" =
      (Except.ok ("Report updated"), dbC5) :=
  update_report_missing_id_silent_noop sess1 dbC5 ("R9")
    ⟨"S1", none, none, none, none, none⟩ "tok" "now" "david" rfl (by decide)

/-- C10: for an update of an existing `report_id`, every narrative field
omitted from the body is overwritten with the empty string and an omitted
`sign_status` is overwritten with "Draft" (and `updated_at` is set to
now): a partial update clears the unspecified fields. -/
theorem update_report_clears_omitted_fields (sessions : Sessions) (db : DB)
    (report_id : String) (data : ReportData) (token now u : String)
    (hauth : verify_token sessions token = Except.ok u)
    (hex : ∃ rp ∈ db.reports, rp.report_id = report_id) :
    ∃ db1 : DB,
      update_report sessions db report_id data token now =
        (Except.ok ("Report updated"), db1) ∧
      (∃ rp ∈ db1.reports, rp.report_id = report_id) ∧
      ∀ rp ∈ db1.reports, rp.report_id = report_id →
        (data.indication = none → rp.indication = "") ∧
        (data.technique = none → rp.technique = "") ∧
        (data.findings = none → rp.findings = "") ∧
        (data.impression = none → rp.impression = "") ∧
        (data.sign_status = none → rp.sign_status = "Draft") ∧
        rp.updated_at = now := by
  unfold update_report
  rw [hauth]
  refine ⟨_, rfl, ?_, ?_⟩
  · obtain ⟨rp, hrp, hid⟩ := hex
    refine ⟨overwriteReport data now rp, ?_, ?_⟩
    · exact List.mem_map.2 ⟨rp, hrp, by rw [if_pos hid]⟩
    · simpa [overwriteReport] using hid
  · intro rp hrp hid2
    obtain ⟨orig, horig, heq⟩ := List.mem_map.1 hrp
    by_cases horigid : orig.report_id = report_id
    · rw [if_pos horigid] at heq
      subst heq
      exact ⟨fun h => by simp [overwriteReport, h], fun h => by simp [overwriteReport, h],
        fun h => by simp [overwriteReport, h], fun h => by simp [overwriteReport, h],
        fun h => by simp [overwriteReport, h], by simp [overwriteReport]⟩
    · rw [if_neg horigid] at heq
      subst heq
      exact absurd hid2 horigid

/-! ## Import -/

theorem importLoop_length : ∀ (rows : List ImportRow) (db : DB) (r : Rng) (c : Nat),
    (importLoop rows db r c).1.patients.length + c =
      db.patients.length + (importLoop rows db r c).2.2
  | [], db, r, c => by simp [importLoop]
  | row :: rest, db, r, c => by
    simp only [importLoop]
    split
    · exact importLoop_length rest db _ c
    · have h := importLoop_length rest
        { db with patients := db.patients ++
            [importPatient row (uuidStr (nextNat r).1)
              (row.mrn.getD ("KCH" ++ toString (randint 1000000 9999999 (nextNat r).2).1))] }
        (randint 1000000 9999999 (nextNat r).2).2 (c + 1)
      simp only [List.length_append, List.length_cons, List.length_nil] at h
      omega

theorem importLoop_nodup : ∀ (rows : List ImportRow) (db : DB) (r : Rng) (c : Nat),
    (db.patients.map Patient.mrn).Nodup →
    ((importLoop rows db r c).1.patients.map Patient.mrn).Nodup
  | [], db, r, c, h => by simpa [importLoop] using h
  | row :: rest, db, r, c, h => by
    simp only [importLoop]
    split
    · exact importLoop_nodup rest db _ c h
    · next hany =>
      refine importLoop_nodup rest _ _ (c + 1) ?_
      simp only [List.map_append, List.map_cons, List.map_nil]
      rw [List.nodup_append]
      refine ⟨h, List.nodup_singleton _, ?_⟩
      intro m hm hm2
      simp only [List.mem_singleton] at hm2
      obtain ⟨p, hp, hpm⟩ := List.mem_map.1 hm
      exact hany (List.any_eq_true.2 ⟨p, hp, decide_eq_true (by simp [hpm, hm2, importPatient])⟩)

theorem importLoop_skips_duplicate (row : ImportRow) (rest : List ImportRow)
    (db2 : DB) (r2 : Rng) (c2 : Nat) (m : String)
    (hm : row.mrn = some m) (hdup : ∃ p ∈ db2.patients, p.mrn = m) :
    importLoop (row :: rest) db2 r2 c2 =
      importLoop rest db2 (randint 1000000 9999999 (nextNat r2).2).2 c2 := by
  obtain ⟨p, hp, hpm⟩ := hdup
  simp only [importLoop, hm, Option.getD_some]
  rw [if_pos (List.any_eq_true.2 ⟨p, hp, decide_eq_true hpm⟩)]

/-- C7: a row whose MRN duplicates an already-present patient MRN is
skipped and the loop continues with the remaining rows; after every import
all patient MRNs are unique (given they were unique before); and the
returned imported count equals the number of patient rows actually
inserted. -/
theorem import_duplicate_mrn_skipped (sessions : Sessions) (db : DB)
    (token u : String) (rows : List ImportRow) (r : Rng)
    (hauth : verify_token sessions token = Except.ok u)
    (hnod : (db.patients.map Patient.mrn).Nodup) :
    (∀ (row : ImportRow) (rest : List ImportRow) (db2 : DB) (r2 : Rng) (c2 : Nat)
        (m : String), row.mrn = some m → (∃ p ∈ db2.patients, p.mrn = m) →
      importLoop (row :: rest) db2 r2 c2 =
        importLoop rest db2 (randint 1000000 9999999 (nextNat r2).2).2 c2) ∧
    ((importLoop rows db r 0).1.patients.map Patient.mrn).Nodup ∧
    import_data sessions db token (Except.ok rows) r =
      (Except.ok ((importLoop rows db r 0).1.patients.length - db.patients.length),
       (importLoop rows db r 0).1) := by
  refine ⟨importLoop_skips_duplicate, importLoop_nodup rows db r 0 hnod, ?_⟩
  unfold import_data
  rw [hauth]
  have h := importLoop_length rows db r 0
  simp only [Prod.mk.injEq, Except.ok.injEq]
  exact ⟨by omega, trivial⟩

/-- C7 witness: importing a row duplicating MRN "M1" into `dbC6` inserts
nothing, keeps the MRNs unique and reports 0 inserted. -/
theorem import_duplicate_mrn_skipped_witness :
    ((importLoop [⟨some ("M1"), none, none, none, none⟩] dbC6 [] 0).1.patients.map
        Patient.mrn).Nodup ∧
    import_data sess1 dbC6 ("tok") (Except.ok [⟨some ("M1"), none, none, none, none⟩]) [] =
      (Except.ok ((importLoop [⟨some ("M1"), none, none, none, none⟩] dbC6 [] 0).1.patients.length -
        dbC6.patients.length),
       (importLoop [⟨some ("M1"), none, none, none, none⟩] dbC6 [] 0).1) :=
  ⟨(import_duplicate_mrn_skipped sess1 dbC6 ("tok") "david"
      [⟨some ("M1"), none, none, none, none⟩] [] rfl (by decide)).2.1,
   (import_duplicate_mrn_skipped sess1 dbC6 ("tok") "david"
      [⟨some ("M1"), none, none, none, none⟩] [] rfl (by decide)).2.2⟩

/-! ## Substrings and pool membership -/

theorem toList_append (a b : String) : (a ++ b).toList = a.toList ++ b.toList :=
  String.data_append a b

theorem startsWithL_append_self : ∀ n t : List Char, startsWithL n (n ++ t) = true
  | [], _ => rfl
  | a :: as, t => by simp [startsWithL, startsWithL_append_self as t]

theorem containsSub_of_startsWithL : ∀ n h : List Char,
    startsWithL n h = true → containsSub n h = true
  | n, [], hs => by
    cases n with
    | nil => rfl
    | cons a as => simp [startsWithL] at hs
  | n, c :: t, hs => by simp [containsSub, hs]

theorem containsSub_append_left : ∀ pre n h : List Char,
    containsSub n h = true → containsSub n (pre ++ h) = true
  | [], n, h, hc => hc
  | p :: ps, n, h, hc => by
    simp only [List.cons_append, containsSub, Bool.or_eq_true]
    exact Or.inr (containsSub_append_left ps n h hc)

theorem chooseD_mem (l : List α) (d : α) (r : Rng) (hl : l ≠ []) :
    (chooseD l d r).1 ∈ l := by
  unfold chooseD
  have hlen : 0 < l.length := List.length_pos.2 hl
  have hlt : (nextNat r).1 % l.length < l.length := Nat.mod_lt _ hlen
  simp only
  rw [List.getD_eq_getElem l d hlt]
  exact List.getElem_mem hlt

theorem RF_get_ne_nil (m : String) : REPORT_FINDINGS_get m ≠ [] := by
  unfold REPORT_FINDINGS_get
  split_ifs <;> simp [RF_CT, RF_MRI, RF_XR, RF_US, RF_NM]

theorem RF_get_subset (m s : String) (h : s ∈ REPORT_FINDINGS_get m) :
    s ∈ RF_CT ++ RF_MRI ++ RF_XR ++ RF_US ++ RF_NM := by
  unfold REPORT_FINDINGS_get at h
  simp only [List.mem_append]
  split_ifs at h <;> tauto

set_option maxRecDepth 8000 in
theorem pools_no_critMark :
    ∀ s ∈ RF_CT ++ RF_MRI ++ RF_XR ++ RF_US ++ RF_NM,
      containsSub critMark.toList s.toList = false := by decide

/-- A findings text drawn from any modality's pool never contains the
critical-finding marker. -/
theorem chooseD_pool_clean (m : String) (r : Rng) :
    containsSub critMark.toList ((chooseD (REPORT_FINDINGS_get m) ("") r).1).toList = false :=
  pools_no_critMark _
    (RF_get_subset m _ (chooseD_mem (REPORT_FINDINGS_get m) ("") r (RF_get_ne_nil m)))

/-! ## Generator structure -/

theorem genSeries_length (sid : String) : ∀ (n sn : Nat) (r : Rng),
    ((genSeries sid n sn r).1).length = n
  | 0, _, _ => rfl
  | n + 1, sn, r => by
    simp only [genSeries, List.length_cons]
    rw [genSeries_length sid n (sn + 1) _]

theorem genSeries_study_id (sid : String) : ∀ (n sn : Nat) (r : Rng) (se : Series),
    se ∈ (genSeries sid n sn r).1 → se.study_id = sid
  | 0, _, _, se, h => absurd h (List.not_mem_nil se)
  | n + 1, sn, r, se, h => by
    simp only [genSeries, List.mem_cons] at h
    rcases h with rfl | h
    · rfl
    · exact genSeries_study_id sid n (sn + 1) _ se h

theorem genStudy_ok (pid : String) (critical_pct : Nat) (r : Rng) :
    BlockOK (genStudy pid critical_pct r).1 := by
  unfold genStudy BlockOK
  simp only
  split
  · next hst =>
    refine ⟨?_, ?_, ?_, ?_⟩
    · refine List.length_pos.1 ?_
      rw [genSeries_length]
      unfold randint
      simp only
      omega
    · exact fun se hse => genSeries_study_id _ _ _ _ se hse
    · exact iff_of_true (List.cons_ne_nil _ _) hst
    · intro rp hrp
      rw [List.mem_singleton] at hrp
      subst hrp
      refine ⟨rfl, ?_⟩
      dsimp only
      split
      · refine iff_of_true ?_ rfl
        dsimp only
        simp only [toList_append, List.append_assoc]
        exact containsSub_append_left _ _ _ (containsSub_append_left _ _ _
          (containsSub_of_startsWithL _ _ (startsWithL_append_self _ _)))
      · refine iff_of_false ?_ (by simp)
        intro hcc
        dsimp only at hcc
        rw [chooseD_pool_clean] at hcc
        cases hcc
  · next hst =>
    refine ⟨?_, ?_, ?_, ?_⟩
    · refine List.length_pos.1 ?_
      rw [genSeries_length]
      unfold randint
      simp only
      omega
    · exact fun se hse => genSeries_study_id _ _ _ _ se hse
    · exact iff_of_false (by simp) hst
    · intro rp hrp
      exact absurd hrp (List.not_mem_nil rp)

theorem genStudies_ok (pid : String) (critical_pct : Nat) : ∀ (n : Nat) (r : Rng)
    (b : StudyBlock), b ∈ (genStudies pid critical_pct n r).1 → BlockOK b
  | 0, r, b, h => absurd h (List.not_mem_nil b)
  | n + 1, r, b, h => by
    simp only [genStudies, List.mem_cons] at h
    rcases h with rfl | h
    · exact genStudy_ok pid critical_pct r
    · exact genStudies_ok pid critical_pct n _ b h

theorem appendBlocks_fields : ∀ (bs : List StudyBlock) (db : DB),
    (appendBlocks db bs).patients = db.patients ∧
    (appendBlocks db bs).orders = db.orders ++ bs.map StudyBlock.order ∧
    (appendBlocks db bs).studies = db.studies ++ bs.map StudyBlock.study ∧
    (appendBlocks db bs).series = db.series ++ bs.flatMap StudyBlock.series ∧
    (appendBlocks db bs).reports = db.reports ++ bs.flatMap StudyBlock.reports
  | [], db => by simp [appendBlocks]
  | b :: bs, db => by
    have ih := appendBlocks_fields bs (appendBlock db b)
    simp only [appendBlocks, List.foldl_cons] at ih ⊢
    refine ⟨?_, ?_, ?_, ?_, ?_⟩
    · rw [ih.1]
      rfl
    · rw [ih.2.1]
      simp [appendBlock, List.append_assoc]
    · rw [ih.2.2.1]
      simp [appendBlock, List.append_assoc]
    · rw [ih.2.2.2.1]
      simp [appendBlock, List.append_assoc]
    · rw [ih.2.2.2.2]
      simp [appendBlock, List.append_assoc]

theorem appendBlocks_blocks (db0 db : DB) (bs : List StudyBlock)
    (ho : db0.orders = db.orders) (hs : db0.studies = db.studies)
    (hse : db0.series = db.series) (hr : db0.reports = db.reports)
    (hok : ∀ b ∈ bs, BlockOK b) :
    ∃ bs2 : List StudyBlock,
      (appendBlocks db0 bs).orders = db.orders ++ bs2.map StudyBlock.order ∧
      (appendBlocks db0 bs).studies = db.studies ++ bs2.map StudyBlock.study ∧
      (appendBlocks db0 bs).series = db.series ++ bs2.flatMap StudyBlock.series ∧
      (appendBlocks db0 bs).reports = db.reports ++ bs2.flatMap StudyBlock.reports ∧
      ∀ b ∈ bs2, BlockOK b :=
  ⟨bs, by rw [(appendBlocks_fields bs db0).2.1, ho],
    by rw [(appendBlocks_fields bs db0).2.2.1, hs],
    by rw [(appendBlocks_fields bs db0).2.2.2.1, hse],
    by rw [(appendBlocks_fields bs db0).2.2.2.2, hr], hok⟩

theorem genPatient_blocks (spp pct : Nat) (db : DB) (r : Rng) :
    ∃ bs : List StudyBlock,
      (genPatient spp pct db r).1.orders = db.orders ++ bs.map StudyBlock.order ∧
      (genPatient spp pct db r).1.studies = db.studies ++ bs.map StudyBlock.study ∧
      (genPatient spp pct db r).1.series = db.series ++ bs.flatMap StudyBlock.series ∧
      (genPatient spp pct db r).1.reports = db.reports ++ bs.flatMap StudyBlock.reports ∧
      ∀ b ∈ bs, BlockOK b := by
  unfold genPatient
  simp only
  split
  · exact ⟨[], by simp, by simp, by simp, by simp, by simp⟩
  · exact appendBlocks_blocks _ db _ rfl rfl rfl rfl
      (fun b hb => genStudies_ok _ _ _ _ b hb)

theorem generator_blocks_aux : ∀ (np spp pct : Nat) (db : DB) (r : Rng),
    ∃ blocks : List StudyBlock,
      (generate_patients_and_studies np spp pct db r).1.orders =
        db.orders ++ blocks.map StudyBlock.order ∧
      (generate_patients_and_studies np spp pct db r).1.studies =
        db.studies ++ blocks.map StudyBlock.study ∧
      (generate_patients_and_studies np spp pct db r).1.series =
        db.series ++ blocks.flatMap StudyBlock.series ∧
      (generate_patients_and_studies np spp pct db r).1.reports =
        db.reports ++ blocks.flatMap StudyBlock.reports ∧
      ∀ b ∈ blocks, BlockOK b
  | 0, spp, pct, db, r =>
    ⟨[], by simp [generate_patients_and_studies], by simp [generate_patients_and_studies],
      by simp [generate_patients_and_studies], by simp [generate_patients_and_studies],
      by simp⟩
  | n + 1, spp, pct, db, r => by
    obtain ⟨bs1, ho1, hs1, hse1, hr1, hok1⟩ := genPatient_blocks spp pct db r
    obtain ⟨bs2, ho2, hs2, hse2, hr2, hok2⟩ :=
      generator_blocks_aux n spp pct (genPatient spp pct db r).1
        (genPatient spp pct db r).2.1
    refine ⟨bs1 ++ bs2, ?_, ?_, ?_, ?_, ?_⟩
    · simp only [generate_patients_and_studies]
      rw [ho2, ho1, List.map_append, List.append_assoc]
    · simp only [generate_patients_and_studies]
      rw [hs2, hs1, List.map_append, List.append_assoc]
    · simp only [generate_patients_and_studies]
      rw [hse2, hse1, List.flatMap_append, List.append_assoc]
    · simp only [generate_patients_and_studies]
      rw [hr2, hr1, List.flatMap_append, List.append_assoc]
    · intro b hb
      rcases List.mem_append.1 hb with hb | hb
      · exact hok1 b hb
      · exact hok2 b hb

/-- C8: every run of the synthetic data generator extends the four
study-related tables exactly by a list of per-study blocks, each of which
has at least one child series (all referencing that study), has a report
row iff the study's report_status is Preliminary or Final, and carries the
critical-finding sentence in its report findings iff the study's critical
flag is set. -/
theorem generator_structural_contract (np spp pct : Nat) (db : DB) (r : Rng) :
    ∃ blocks : List StudyBlock,
      (generate_patients_and_studies np spp pct db r).1.orders =
        db.orders ++ blocks.map StudyBlock.order ∧
      (generate_patients_and_studies np spp pct db r).1.studies =
        db.studies ++ blocks.map StudyBlock.study ∧
      (generate_patients_and_studies np spp pct db r).1.series =
        db.series ++ blocks.flatMap StudyBlock.series ∧
      (generate_patients_and_studies np spp pct db r).1.reports =
        db.reports ++ blocks.flatMap StudyBlock.reports ∧
      ∀ b ∈ blocks, BlockOK b :=
  generator_blocks_aux np spp pct db r

/-! ## Export / import round trip -/

theorem newCount_card : ∀ (l : List String) (seen : Finset String),
    newCount seen l = (l.toFinset \ seen).card
  | [], seen => by simp [newCount]
  | m :: ms, seen => by
    simp only [newCount, List.toFinset_cons]
    by_cases hm : m ∈ seen
    · rw [if_pos hm, newCount_card ms seen]
      congr 1
      ext x
      simp only [Finset.mem_sdiff, Finset.mem_insert]
      constructor
      · rintro ⟨hx, hx2⟩
        exact ⟨Or.inr hx, hx2⟩
      · rintro ⟨rfl | hx, hx2⟩
        · exact absurd hm hx2
        · exact ⟨hx, hx2⟩
    · rw [if_neg hm, newCount_card ms (insert m seen)]
      have h1 : ms.toFinset \ insert m seen = (ms.toFinset \ seen).erase m := by
        ext x
        simp only [Finset.mem_sdiff, Finset.mem_insert, Finset.mem_erase, not_or]
        tauto
      have h2 : insert m ms.toFinset \ seen = insert m (ms.toFinset \ seen) := by
        ext x
        simp only [Finset.mem_sdiff, Finset.mem_insert]
        constructor
        · rintro ⟨rfl | hx, hx2⟩
          · exact Or.inl rfl
          · exact Or.inr ⟨hx, hx2⟩
        · rintro (rfl | ⟨hx, hx2⟩)
          · exact ⟨Or.inl rfl, hm⟩
          · exact ⟨Or.inr hx, hx2⟩
      rw [h1, h2]
      by_cases hx : m ∈ ms.toFinset \ seen
      · rw [Finset.insert_eq_self.2 hx]
        have h3 := Finset.card_erase_of_mem hx
        have hpos : 0 < (ms.toFinset \ seen).card := Finset.card_pos.2 ⟨m, hx⟩
        omega
      · rw [Finset.erase_eq_of_not_mem hx, Finset.card_insert_of_not_mem hx]

theorem importLoop_count : ∀ (rows : List ImportRow) (db : DB) (r : Rng) (c : Nat),
    (∀ row ∈ rows, row.mrn.isSome = true) →
    (importLoop rows db r c).2.2 =
      c + newCount (db.patients.map Patient.mrn).toFinset
            (rows.map fun row => row.mrn.getD (""))
  | [], db, r, c, h => by simp [importLoop, newCount]
  | row :: rest, db, r, c, h => by
    obtain ⟨m, hm⟩ := Option.isSome_iff_exists.1 (h row (List.mem_cons_self row rest))
    have hrest := fun row2 h2 => h row2 (List.mem_cons_of_mem row h2)
    simp only [importLoop, List.map_cons, newCount, hm, Option.getD_some]
    by_cases hmem : m ∈ (db.patients.map Patient.mrn).toFinset
    · have hguard : (db.patients.any fun p => p.mrn = m) = true := by
        obtain ⟨p, hp, hpm⟩ := List.mem_map.1 (List.mem_toFinset.1 hmem)
        exact List.any_eq_true.2 ⟨p, hp, decide_eq_true hpm⟩
      rw [if_pos hguard, if_pos hmem]
      exact importLoop_count rest db _ c hrest
    · have hguard : ¬(db.patients.any fun p => p.mrn = m) = true := by
        intro hany
        obtain ⟨p, hp, hpm⟩ := List.any_eq_true.1 hany
        exact hmem (List.mem_toFinset.2 (List.mem_map.2 ⟨p, hp, of_decide_eq_true hpm⟩))
      rw [if_neg hguard, if_neg hmem]
      rw [importLoop_count rest _ _ (c + 1) hrest]
      have hseen : (({ db with patients := db.patients ++
            [importPatient row (uuidStr (nextNat r).1) m] } : DB).patients.map
              Patient.mrn).toFinset =
          insert m (db.patients.map Patient.mrn).toFinset := by
        simp only [List.map_append, List.toFinset_append, List.map_cons, List.map_nil]
        ext x
        simp only [Finset.mem_union, Finset.mem_insert, List.mem_toFinset,
          List.mem_singleton, List.mem_cons, List.not_mem_nil, or_false, importPatient]
        tauto
      rw [hseen]
      omega

/-- Each row of the export join carries the MRN of a covered patient, and
every covered patient contributes a row. -/
theorem exportJoin_mrn_toFinset (db : DB) :
    ((exportJoin db).map ExportRow.mrn).toFinset =
      ((db.patients.filter (coveredB db)).map Patient.mrn).toFinset := by
  ext m
  simp only [List.mem_toFinset, List.mem_map, exportJoin, List.mem_flatMap,
    List.mem_filter, coveredB, List.any_eq_true, decide_eq_true_eq,
    Bool.and_eq_true]
  constructor
  · rintro ⟨row, ⟨s, hs, p, ⟨hp, hsp⟩, o, ⟨ho, hso⟩, rfl⟩, rfl⟩
    exact ⟨p, ⟨hp, s, hs, hsp, o, ho, hso⟩, rfl⟩
  · rintro ⟨p, ⟨hp, s, hs, hsp, o, ho, hso⟩, rfl⟩
    exact ⟨_, ⟨s, hs, p, ⟨hp, hsp⟩, o, ⟨ho, hso⟩, rfl⟩, rfl⟩

/-- C6 counterexample: exporting `dbC6` (two patients, one of them with a
study) and importing that same JSON back into the unchanged database
inserts 0 patients — not the 2 patients of the table nor the 1 patient the
export covered: every exported MRN is already present and is skipped. -/
theorem export_import_same_db_zero :
    (import_data sess1 dbC6 ("tok")
        (Except.ok ((exportRows dbC6).map toImportRow)) []).1 = Except.ok 0 ∧
    dbC6.patients.length = 2 ∧
    (dbC6.patients.filter (coveredB dbC6)).length = 1 := by
  refine ⟨rfl, rfl, by decide⟩

/-- C6 amended: exporting as JSON and importing that JSON into a database
whose patients table is empty inserts exactly one patient per patient the
export was taken over, i.e. per patient with at least one exported
(study, order) row — MRNs being unique, each such patient's MRN is
inserted once and duplicates from its further studies are skipped. -/
theorem export_import_roundtrip_fresh (sessions : Sessions) (db dbt : DB)
    (token u : String) (r : Rng)
    (hauth : verify_token sessions token = Except.ok u)
    (hmrn : (db.patients.map Patient.mrn).Nodup)
    (hempty : dbt.patients = []) :
    (import_data sessions dbt token
        (Except.ok ((exportRows db).map toImportRow)) r).1 =
      Except.ok ((db.patients.filter (coveredB db)).length) := by
  unfold import_data
  rw [hauth]
  simp only
  congr 1
  have hsome : ∀ row ∈ (exportRows db).map toImportRow, row.mrn.isSome = true := by
    intro row hrow
    obtain ⟨e, _, rfl⟩ := List.mem_map.1 hrow
    rfl
  rw [importLoop_count _ _ _ _ hsome, hempty]
  simp only [List.map_nil, List.toFinset_nil, Nat.zero_add]
  rw [newCount_card, Finset.sdiff_empty]
  have hmaps : ((exportRows db).map toImportRow).map (fun row => row.mrn.getD ("")) =
      (exportRows db).map ExportRow.mrn := by
    rw [List.map_map]
    rfl
  rw [hmaps]
  have hperm : ((exportRows db).map ExportRow.mrn).Perm
      ((exportJoin db).map ExportRow.mrn) :=
    (perm_sortByLe _ (exportJoin db)).map ExportRow.mrn
  rw [List.toFinset_eq_of_perm _ _ hperm, exportJoin_mrn_toFinset db]
  have hnodup : ((db.patients.filter (coveredB db)).map Patient.mrn).Nodup :=
    ((List.filter_sublist db.patients).map Patient.mrn).nodup hmrn
  rw [List.toFinset_card_of_nodup hnodup, List.length_map]

/-- C6 amended witness: importing the export of `dbC6` into an empty
database inserts exactly one patient — the one patient the export was
taken over. -/
theorem export_import_roundtrip_fresh_witness :
    (import_data sess1 DB.empty ("tok")
        (Except.ok ((exportRows dbC6).map toImportRow)) []).1 =
      Except.ok ((dbC6.patients.filter (coveredB dbC6)).length) :=
  export_import_roundtrip_fresh sess1 dbC6 DB.empty ("tok") "david" [] rfl
    (by decide) rfl

/-- C10 witness: updating "R1" with an all-omitted body clears the
narrative fields and resets `sign_status` to "Draft". -/
theorem update_report_clears_omitted_fields_witness :
    ∃ db1 : DB,
      update_report sess1 dbC5 ("R1") ⟨"S1", none, none, none, none, none⟩ "tok" "now" =
        (Except.ok ("Report updated"), db1) ∧
      (∃ rp ∈ db1.reports, rp.report_id = "R1") ∧
      ∀ rp ∈ db1.reports, rp.report_id = "R1" →
        ((⟨"S1", none, none, none, none, none⟩ : ReportData).indication = none →
          rp.indication = "") ∧
        ((⟨"S1", none, none, none, none, none⟩ : ReportData).technique = none →
          rp.technique = "") ∧
        ((⟨"S1", none, none, none, none, none⟩ : ReportData).findings = none →
          rp.findings = "") ∧
        ((⟨"S1", none, none, none, none, none⟩ : ReportData).impression = none →
          rp.impression = "") ∧
        ((⟨"S1", none, none, none, none, none⟩ : ReportData).sign_status = none →
          rp.sign_status = "Draft") ∧
        rp.updated_at = "now" :=
  update_report_clears_omitted_fields sess1 dbC5 ("R1")
    ⟨"S1", none, none, none, none, none⟩ "tok" "now" "david" rfl
    ⟨rep1, by decide, rfl⟩

end Aria
